import Mathlib

/-!
Shallow embedding of the investment-tracker backend:
the data-access layer (app/crud.py) and the user route handlers
(app/api/routes/users.py).  The relational store is modelled as lists of
rows; each commit is an explicit state transition on `Store`.  Python
exceptions escaping a handler are modelled with `Except PyError`.
-/

/-- Python runtime values as they appear in a pydantic model_dump dictionary
(only integers and strings occur in the entities modelled here; dates are
modelled as integer timestamps). -/
inductive PyValue where
  | int (n : Int)
  | str (s : String)
deriving DecidableEq, Repr

def PyValue.isInt : PyValue → Bool
  | .int _ => true
  | .str _ => false

def PyValue.isStr : PyValue → Bool
  | .int _ => false
  | .str _ => true

/-- Modelled from the spec: models.py is absent from the sources; the User
columns follow the data-model table (id, email, username, hashed_password). -/
structure User where
  id : Int
  email : String
  username : String
  hashed_password : String
deriving DecidableEq, Repr

/-- Modelled from the spec: the signup payload (email, username, password). -/
structure UserCreate where
  email : String
  username : String
  password : String
deriving DecidableEq, Repr

/-- Modelled from the spec: the PUT /users payload with optional username and
password fields; a missing field is `none`. -/
structure UserUpdate where
  username : Option String
  password : Option String
deriving DecidableEq, Repr

/-- Modelled from the spec: Instrument columns (prices modelled as integers;
no claim depends on fractional arithmetic). -/
structure Instrument where
  id : Int
  symbol : String
  open_ : Int
  high : Int
  low : Int
  close : Int
  currency : String
deriving DecidableEq, Repr

/-- Modelled from the spec: Order columns (id, user_id, instrument_id, type,
date, volume, price); the date is an integer timestamp. -/
structure Order where
  id : Int
  user_id : Int
  instrument_id : Int
  type : String
  date : Int
  volume : Int
  price : Int
deriving DecidableEq, Repr

/-- Modelled from the spec: Summary columns (id, user_id). -/
structure Summary where
  id : Int
  user_id : Int
deriving DecidableEq, Repr

/-- Modelled from the spec: Portfolio columns (id, user_id). -/
structure Portfolio where
  id : Int
  user_id : Int
deriving DecidableEq, Repr

/-- Modelled from the spec: Asset columns. -/
structure Asset where
  id : Int
  portfolio_id : Int
  instrument_id : Int
  buy_date : String
  buy_price : Int
  volume : Int
deriving DecidableEq, Repr

/-- The relational store: one list of rows per table, plus the id sequence
used for generated primary keys. -/
structure Store where
  users : List User
  instruments : List Instrument
  orders : List Order
  summaries : List Summary
  portfolios : List Portfolio
  assets : List Asset
  next_id : Int
deriving DecidableEq, Repr

/-- Response shape of the users listing. -/
structure UsersPublic where
  data : List User
  count : Nat
deriving DecidableEq, Repr

/-- Response shape of get_orders. -/
structure OrdersPublic where
  data : List Order
  count : Nat
deriving DecidableEq, Repr

/-- Python exceptions escaping a handler: an HTTPException carries a status
code and detail; attribute access on None raises AttributeError; reading an
unassigned local raises UnboundLocalError. -/
inductive PyError where
  | http (status_code : Nat) (detail : String)
  | attributeError (msg : String)
  | unboundLocal (msg : String)
deriving DecidableEq, Repr

/-- Python truthiness of an optional string: None and the empty string are
falsy. -/
def pyTruthyOptStr : Option String → Bool
  | none => false
  | some s => s ≠ ""

/-- Python truthiness of an optional integer: None and 0 are falsy. -/
def pyTruthyOptInt : Option Int → Bool
  | none => false
  | some n => n ≠ 0

/-- Python truthiness of an optional datetime: only None is falsy (every
datetime object is truthy). -/
def pyTruthyOptDate : Option Int → Bool
  | none => false
  | some _ => true

/-- Modelled from the spec: the password-hashing capability
hash(plaintext) -> digest of app/core/security.py (absent from the sources),
modelled as an injective tagging function. -/
def get_password_hash (password : String) : String :=
  "hash(" ++ password ++ ")"

/-- In-place mutation of the first row matching a predicate, as the ORM
session does when an object fetched by a query is mutated and committed. -/
def updateFirst (p : α → Bool) (f : α → α) : List α → List α
  | [] => []
  | x :: xs => if p x then f x :: xs else x :: updateFirst p f xs

namespace Crud

/-- app/crud.py create_user: validates the payload into a User row with the
hashed password and a generated id, adds it and commits. -/
def create_user (s : Store) (user_create : UserCreate) : User × Store :=
  let db_obj : User :=
    { id := s.next_id
      email := user_create.email
      username := user_create.username
      hashed_password := get_password_hash user_create.password }
  (db_obj, { s with users := s.users ++ [db_obj], next_id := s.next_id + 1 })

/-- app/crud.py get_user_by_email: first row with the given email, or None. -/
def get_user_by_email (s : Store) (email : String) : Option User :=
  s.users.find? (fun u => u.email == email)

/-- app/crud.py get_user_by_username. -/
def get_user_by_username (s : Store) (username : String) : Option User :=
  s.users.find? (fun u => u.username == username)

/-- app/crud.py get_user_by_id. -/
def get_user_by_id (s : Store) (id : Int) : Option User :=
  s.users.find? (fun u => u.id == id)

/-- app/crud.py change_username: fetches the user by email and mutates its
username with no absence check; when the email matches no row the attribute
assignment on None raises AttributeError. -/
def change_username (s : Store) (email : String) (new_username : String) :
    Except PyError (User × Store) :=
  match get_user_by_email s email with
  | none => .error (.attributeError "NoneType object has no attribute username")
  | some user =>
      .ok ({ user with username := new_username },
        { s with users := (updateFirst (fun u => u.email == email)
            (fun u => { u with username := new_username }) s.users) })

/-- app/crud.py change_password: fetches the user by email and overwrites
hashed_password with the hash of the new password, with no absence check. -/
def change_password (s : Store) (email : String) (new_password : String) :
    Except PyError (User × Store) :=
  match get_user_by_email s email with
  | none => .error (.attributeError "NoneType object has no attribute hashed_password")
  | some user =>
      .ok ({ user with hashed_password := get_password_hash new_password },
        { s with users := (updateFirst (fun u => u.email == email)
            (fun u => { u with hashed_password := get_password_hash new_password }) s.users) })

/-- Modelled from the spec: models.py is absent from the sources; per the
data-model invariant "deleting a user cascades delete of its orders,
portfolio assets, and summary", the User-row delete removes the portfolio
rows owned by the user and the assets of those portfolios (orders and the
summary are deleted explicitly by the route handler). -/
def user_row_cascade (s : Store) (user_id : Int) : Store :=
  let owned := s.portfolios.filter (fun p => p.user_id == user_id)
  { s with
    portfolios := s.portfolios.filter (fun p => p.user_id != user_id)
    assets := s.assets.filter (fun a => !(owned.any (fun p => p.id == a.portfolio_id))) }

/-- app/crud.py delete_user: session.delete on the User row, plus the
spec-modelled row cascade for the portfolio and its assets. -/
def delete_user (s : Store) (user : User) : Store :=
  user_row_cascade { s with users := s.users.filter (fun u => u.id != user.id) } user.id

/-- app/crud.py get_instrument_by_symbol. -/
def get_instrument_by_symbol (s : Store) (symbol : String) : Option Instrument :=
  s.instruments.find? (fun i => i.symbol == symbol)

/-- app/crud.py get_instrument_by_id. -/
def get_instrument_by_id (s : Store) (id : Int) : Option Instrument :=
  s.instruments.find? (fun i => i.id == id)

/-- app/crud.py get_orders: the base statement selects orders of the user;
each optional filter adds a where-clause only when the argument is truthy. -/
def get_orders (s : Store) (user_id : Int) (instrument_id : Option Int)
    (start_date : Option Int) (end_date : Option Int) (type : Option String) :
    OrdersPublic :=
  let l0 := s.orders.filter (fun o => o.user_id == user_id)
  let l1 := if pyTruthyOptInt instrument_id then
      l0.filter (fun o => o.instrument_id == instrument_id.getD 0) else l0
  let l2 := if pyTruthyOptDate start_date then
      l1.filter (fun o => start_date.getD 0 ≤ o.date) else l1
  let l3 := if pyTruthyOptDate end_date then
      l2.filter (fun o => o.date ≤ end_date.getD 0) else l2
  let results := if pyTruthyOptStr type then
      l3.filter (fun o => o.type == type.getD "") else l3
  { data := results, count := results.length }

/-- app/crud.py get_order_by_id. -/
def get_order_by_id (s : Store) (order_id : Int) : Option Order :=
  s.orders.find? (fun o => o.id == order_id)

/-- app/crud.py delete_order. -/
def delete_order (s : Store) (order : Order) : Store :=
  { s with orders := s.orders.filter (fun o => o.id != order.id) }

/-- app/crud.py create_summary: a Summary row tied to the user, with a
generated id. -/
def create_summary (s : Store) (user : User) : Summary × Store :=
  let db_obj : Summary := { id := s.next_id, user_id := user.id }
  (db_obj, { s with summaries := s.summaries ++ [db_obj], next_id := s.next_id + 1 })

/-- app/crud.py get_summary_by_id. -/
def get_summary_by_id (s : Store) (summary_id : Int) : Option Summary :=
  s.summaries.find? (fun x => x.id == summary_id)

/-- app/crud.py get_summary_by_user_id. -/
def get_summary_by_user_id (s : Store) (user_id : Int) : Option Summary :=
  s.summaries.find? (fun x => x.user_id == user_id)

/-- app/crud.py delete_summary. -/
def delete_summary (s : Store) (summary : Summary) : Store :=
  { s with summaries := s.summaries.filter (fun x => x.id != summary.id) }

end Crud

/-- Modelled from the spec: the attribute names of the Order columns
(models.py is absent); hasattr and setattr dispatch on these. -/
def orderAttrs : List String :=
  ["id", "user_id", "instrument_id", "type", "date", "volume", "price"]

/-- Python hasattr(order, k). -/
def orderHasAttr (k : String) : Bool := orderAttrs.contains k

/-- Python setattr(order, k, v): sets the named column; a pydantic dump only
produces values of the column type, so an ill-typed pair (unreachable from a
validated payload) leaves the row unchanged. -/
def orderSetattr (o : Order) (k : String) (v : PyValue) : Order :=
  if k = "id" then (match v with | .int n => { o with id := n } | _ => o)
  else if k = "user_id" then (match v with | .int n => { o with user_id := n } | _ => o)
  else if k = "instrument_id" then (match v with | .int n => { o with instrument_id := n } | _ => o)
  else if k = "type" then (match v with | .str t => { o with type := t } | _ => o)
  else if k = "date" then (match v with | .int n => { o with date := n } | _ => o)
  else if k = "volume" then (match v with | .int n => { o with volume := n } | _ => o)
  else if k = "price" then (match v with | .int n => { o with price := n } | _ => o)
  else o

/-- Python getattr(order, k) as a PyValue, none when k is not a column. -/
def orderGetattr (o : Order) (k : String) : Option PyValue :=
  if k = "id" then some (.int o.id)
  else if k = "user_id" then some (.int o.user_id)
  else if k = "instrument_id" then some (.int o.instrument_id)
  else if k = "type" then some (.str o.type)
  else if k = "date" then some (.int o.date)
  else if k = "volume" then some (.int o.volume)
  else if k = "price" then some (.int o.price)
  else none

/-- A dump value has the type of the Order column it is keyed by (always the
case for a dump of a validated pydantic payload). -/
def orderWellTyped (k : String) (v : PyValue) : Bool :=
  if k = "type" then v.isStr
  else if orderHasAttr k then v.isInt
  else true

/-- The body of the update loop of app/crud.py update_order:
if hasattr(order, key): setattr(order, key, value). -/
def order_apply_set (o : Order) (kv : String × PyValue) : Order :=
  if orderHasAttr kv.1 then orderSetattr o kv.1 kv.2 else o

/-- Modelled from the spec: the attribute names of the Summary columns. -/
def summaryAttrs : List String := ["id", "user_id"]

/-- Python hasattr(summary, k). -/
def summaryHasAttr (k : String) : Bool := summaryAttrs.contains k

/-- Python setattr(summary, k, v). -/
def summarySetattr (x : Summary) (k : String) (v : PyValue) : Summary :=
  if k = "id" then (match v with | .int n => { x with id := n } | _ => x)
  else if k = "user_id" then (match v with | .int n => { x with user_id := n } | _ => x)
  else x

/-- Python getattr(summary, k) as a PyValue, none when k is not a column. -/
def summaryGetattr (x : Summary) (k : String) : Option PyValue :=
  if k = "id" then some (.int x.id)
  else if k = "user_id" then some (.int x.user_id)
  else none

/-- A dump value has the type of the Summary column it is keyed by. -/
def summaryWellTyped (k : String) (v : PyValue) : Bool :=
  if summaryHasAttr k then v.isInt else true

/-- The body of the update loop of app/crud.py update_summary. -/
def summary_apply_set (x : Summary) (kv : String × PyValue) : Summary :=
  if summaryHasAttr kv.1 then summarySetattr x kv.1 kv.2 else x

namespace Crud

/-- app/crud.py update_order: model_dump(exclude_unset=True) is the
association list of explicitly-set (key, value) pairs; the loop applies each
pair whose key is an attribute of the row, then the commit stores the mutated
row. -/
def update_order (s : Store) (order : Order)
    (update_dict : List (String × PyValue)) : Order × Store :=
  let updated := update_dict.foldl order_apply_set order
  (updated,
    { s with orders := updateFirst (fun o => o.id == order.id) (fun _ => updated) s.orders })

/-- app/crud.py update_summary: same loop over the summary columns. -/
def update_summary (s : Store) (summary : Summary)
    (update_dict : List (String × PyValue)) : Summary × Store :=
  let updated := update_dict.foldl summary_apply_set summary
  (updated,
    { s with summaries := updateFirst (fun x => x.id == summary.id) (fun _ => updated) s.summaries })

end Crud

namespace Api

/-- app/api/routes/users.py get_users: the count is computed over all User
rows first, independent of the returned page; the data statement paginates by
skip and limit and applies at most one of the email/username filters, email
taking priority. -/
def get_users (s : Store) (skip : Nat) (limit : Nat)
    (email : Option String) (username : Option String) : UsersPublic :=
  let count := s.users.length
  let filtered :=
    if pyTruthyOptStr email then s.users.filter (fun u => u.email == email.getD "")
    else if pyTruthyOptStr username then s.users.filter (fun u => u.username == username.getD "")
    else s.users
  { data := (filtered.drop skip).take limit, count := count }

/-- app/api/routes/users.py create_user: 400 when the email is already
registered, otherwise creates the User and then its Summary. -/
def create_user (s : Store) (user_in : UserCreate) : Except PyError User × Store :=
  match Crud.get_user_by_email s user_in.email with
  | some _ =>
      (.error (.http 400 "The user with this email already exists in the system."), s)
  | none =>
      let us1 := Crud.create_user s user_in
      let ss2 := Crud.create_summary us1.2 us1.1
      (.ok us1.1, ss2.2)

/-- app/api/routes/users.py get_user_by_id: 400 when no user has the id. -/
def get_user_by_id (s : Store) (user_id : Int) : Except PyError User × Store :=
  match Crud.get_user_by_id s user_id with
  | none => (.error (.http 400 "No user exists with this id."), s)
  | some user => (.ok user, s)

/-- app/api/routes/users.py update_user: fetches the user by id with no
existence check, rejects an empty payload with 400, then applies the username
change and the password change sequentially, both looking the user up again
by the originally fetched email.  When the id matches no user and the payload
is non-empty, reading .email of the None lookup raises AttributeError. -/
def update_user (s : Store) (user_id : Int) (data : UserUpdate) :
    Except PyError User × Store :=
  let user := Crud.get_user_by_id s user_id
  if !pyTruthyOptStr data.username && !pyTruthyOptStr data.password then
    (.error (.http 400 "No user details to update."), s)
  else
    match user with
    | none => (.error (.attributeError "NoneType object has no attribute email"), s)
    | some u =>
      let step1 : Except PyError (Option User × Store) :=
        if pyTruthyOptStr data.username then
          match Crud.change_username s u.email (data.username.getD "") with
          | .error e => .error e
          | .ok vs => .ok (some vs.1, vs.2)
        else .ok (none, s)
      match step1 with
      | .error e => (.error e, s)
      | .ok us1 =>
        if pyTruthyOptStr data.password then
          match Crud.change_password us1.2 u.email (data.password.getD "") with
          | .error e => (.error e, us1.2)
          | .ok vs => (.ok vs.1, vs.2)
        else
          match us1.1 with
          | some v => (.ok v, us1.2)
          | none => (.error (.unboundLocal "updated_user referenced before assignment"), us1.2)

/-- app/api/routes/users.py delete_user: 400 when no user has the id;
otherwise deletes each of the user's orders, then the summary found by
user id (session.delete(None) raises when it is absent), then the User row. -/
def delete_user (s : Store) (user_id : Int) : Except PyError User × Store :=
  match Crud.get_user_by_id s user_id with
  | none => (.error (.http 400 "Unable to find user with id."), s)
  | some user =>
    let s1 := (s.orders.filter (fun o => o.user_id == user.id)).foldl Crud.delete_order s
    match Crud.get_summary_by_user_id s1 user_id with
    | none => (.error (.attributeError "NoneType is not mapped"), s1)
    | some summary =>
      let s2 := Crud.delete_summary s1 summary
      let s3 := Crud.delete_user s2 user
      (.ok user, s3)

end Api

/-! Helper lemmas about the list primitives used by the embedding. -/

theorem pyTruthyOptStr_none : pyTruthyOptStr none = false := rfl

theorem pyTruthyOptInt_none : pyTruthyOptInt none = false := rfl

theorem pyTruthyOptDate_none : pyTruthyOptDate none = false := rfl

theorem list_find_middle {α : Type} (p : α → Bool) (l1 l2 : List α) (u : α)
    (h1 : ∀ x ∈ l1, p x = false) (h2 : p u = true) :
    (l1 ++ u :: l2).find? p = some u := by
  induction l1 with
  | nil => simp [List.find?, h2]
  | cons a t ih =>
      have ha := h1 a (List.mem_cons_self a t)
      simp only [List.cons_append, List.find?, ha]
      exact ih fun x hx => h1 x (List.mem_cons_of_mem a hx)

theorem list_find_split {α : Type} (p : α → Bool) (l : List α) (u : α)
    (h : l.find? p = some u) :
    ∃ l1 l2, l = l1 ++ u :: l2 ∧ (∀ x ∈ l1, p x = false) ∧ p u = true := by
  induction l with
  | nil => simp [List.find?] at h
  | cons a t ih =>
      by_cases ha : p a = true
      · rw [List.find?_cons_of_pos _ ha] at h
        injection h with h
        subst h
        exact ⟨[], t, rfl, by simp, ha⟩
      · have ha' : p a = false := by simpa using ha
        rw [List.find?_cons_of_neg _ ha] at h
        obtain ⟨l1, l2, rfl, hl1, hu⟩ := ih h
        exact ⟨a :: l1, l2, rfl, by
          intro x hx
          rcases List.mem_cons.mp hx with rfl | hx
          · exact ha'
          · exact hl1 x hx, hu⟩

theorem updateFirst_middle {α : Type} (p : α → Bool) (g : α → α) (l1 l2 : List α) (u : α)
    (h1 : ∀ x ∈ l1, p x = false) (h2 : p u = true) :
    updateFirst p g (l1 ++ u :: l2) = l1 ++ g u :: l2 := by
  induction l1 with
  | nil => simp [updateFirst, h2]
  | cons a t ih =>
      have ha := h1 a (List.mem_cons_self a t)
      have hstep : updateFirst p g ((a :: t) ++ u :: l2) =
          a :: updateFirst p g (t ++ u :: l2) := by
        simp [updateFirst, List.cons_append, ha]
      rw [hstep, ih fun x hx => h1 x (List.mem_cons_of_mem a hx), List.cons_append]

/-! ### C4, C7, C9, C10, C5, C2, C3 -/

/-- C4: for every state of the store, the users listing returns a count equal
to the total number of user rows, ignoring skip/limit and the email/username
filters, while get_orders returns a count equal to the length of the filtered
order list it returns. -/
theorem count_semantics_differ (s : Store) (skip limit : Nat)
    (email username : Option String) (uid : Int) (iid sd ed : Option Int)
    (ty : Option String) :
    (Api.get_users s skip limit email username).count = s.users.length ∧
    (Crud.get_orders s uid iid sd ed ty).count =
      (Crud.get_orders s uid iid sd ed ty).data.length :=
  ⟨rfl, rfl⟩

/-- C7: a PUT /users payload supplying neither a username nor a password is
rejected with HTTP 400 and the store is unchanged. -/
theorem update_user_empty_payload_400 (s : Store) (uid : Int) (data : UserUpdate)
    (h1 : pyTruthyOptStr data.username = false)
    (h2 : pyTruthyOptStr data.password = false) :
    Api.update_user s uid data = (.error (.http 400 "No user details to update."), s) := by
  simp [Api.update_user, h1, h2]

/-- C7 witness. -/
theorem update_user_empty_payload_400_witness :
    Api.update_user ⟨[⟨1, "a@x.com", "a", "h"⟩], [], [], [], [], [], 2⟩ 1 ⟨none, some ""⟩ =
      (.error (.http 400 "No user details to update."),
        ⟨[⟨1, "a@x.com", "a", "h"⟩], [], [], [], [], [], 2⟩) :=
  update_user_empty_payload_400 _ _ _ (by decide) (by decide)

/-- C9: a PUT /users request whose user id matches no stored user but whose
payload supplies a username or a password reaches the .email dereference of
the None lookup and fails with an uncaught AttributeError, not an HTTP 400. -/
theorem update_user_absent_id_crashes (s : Store) (uid : Int) (data : UserUpdate)
    (h : Crud.get_user_by_id s uid = none)
    (ht : pyTruthyOptStr data.username = true ∨ pyTruthyOptStr data.password = true) :
    Api.update_user s uid data =
      (.error (.attributeError "NoneType object has no attribute email"), s) := by
  rcases ht with ht | ht <;> simp [Api.update_user, h, ht]

/-- C9 witness. -/
theorem update_user_absent_id_crashes_witness :
    Api.update_user ⟨[], [], [], [], [], [], 1⟩ 7 ⟨some "b", none⟩ =
      (.error (.attributeError "NoneType object has no attribute email"),
        ⟨[], [], [], [], [], [], 1⟩) :=
  update_user_absent_id_crashes _ _ _ (by decide) (Or.inl (by decide))

/-- Membership in a conditionally filtered list implies membership in the
underlying list. -/
theorem mem_of_mem_condFilter {α : Type} {x : α} {c : Bool} {p : α → Bool}
    {l : List α} (h : x ∈ (if c = true then l.filter p else l)) : x ∈ l := by
  split at h
  · exact (List.mem_filter.mp h).1
  · exact h

/-- C10: a falsy filter argument (instrument_id 0, empty type string, empty
email or username) adds no where-clause: the result equals the call with the
filter not supplied; and every order returned under any filters is among the
orders returned with no optional filter supplied. -/
theorem falsy_filters_ignored (s : Store) (uid : Int) (iid : Option Int)
    (sd ed : Option Int) (ty : Option String) (skip limit : Nat)
    (email email2 username : Option String)
    (hiid : pyTruthyOptInt iid = false) (hty : pyTruthyOptStr ty = false)
    (hem : pyTruthyOptStr email = false) (hun : pyTruthyOptStr username = false) :
    Crud.get_orders s uid iid sd ed ty = Crud.get_orders s uid none sd ed none ∧
    Api.get_users s skip limit email username = Api.get_users s skip limit none username ∧
    Api.get_users s skip limit email2 username = Api.get_users s skip limit email2 none ∧
    (∀ iid2 sd2 ed2 ty2, ∀ o ∈ (Crud.get_orders s uid iid2 sd2 ed2 ty2).data,
      o ∈ (Crud.get_orders s uid none none none none).data) := by
  refine ⟨?_, ?_, ?_, ?_⟩
  · simp [Crud.get_orders, hiid, hty, pyTruthyOptInt_none, pyTruthyOptStr_none]
  · simp [Api.get_users, hem, pyTruthyOptStr_none]
  · cases h : pyTruthyOptStr email2 <;> simp [Api.get_users, h, hun, pyTruthyOptStr_none]
  · intro iid2 sd2 ed2 ty2 o ho
    simp only [Crud.get_orders] at ho ⊢
    exact mem_of_mem_condFilter (mem_of_mem_condFilter
      (mem_of_mem_condFilter (mem_of_mem_condFilter ho)))

/-- C10 witness. -/
theorem falsy_filters_ignored_witness :
    (Crud.get_orders ⟨[], [], [⟨5, 1, 9, "buy", 3, 2, 7⟩], [], [], [], 9⟩ 1
        (some 0) none none (some "") =
      Crud.get_orders ⟨[], [], [⟨5, 1, 9, "buy", 3, 2, 7⟩], [], [], [], 9⟩ 1
        none none none none) ∧
    (Api.get_users ⟨[⟨1, "a@x.com", "a", "h"⟩], [], [], [], [], [], 2⟩ 0 100
        (some "") none =
      Api.get_users ⟨[⟨1, "a@x.com", "a", "h"⟩], [], [], [], [], [], 2⟩ 0 100
        none none) := by
  have h := falsy_filters_ignored ⟨[], [], [⟨5, 1, 9, "buy", 3, 2, 7⟩], [], [], [], 9⟩ 1
    (some 0) none none (some "") 0 100 (some "") (some "x") none
    (by decide) (by decide) (by decide) (by decide)
  have h2 := falsy_filters_ignored ⟨[⟨1, "a@x.com", "a", "h"⟩], [], [], [], [], [], 2⟩ 1
    (some 0) none none (some "") 0 100 (some "") (some "x") none
    (by decide) (by decide) (by decide) (by decide)
  exact ⟨h.1, h2.2.1⟩

/-- The conflict branch of the POST /users handler, as an equation usable on
any store in which the email is already registered. -/
theorem api_create_user_of_found (w : Store) (p : UserCreate) (v : User)
    (h : Crud.get_user_by_email w p.email = some v) :
    Api.create_user w p =
      (.error (.http 400 "The user with this email already exists in the system."), w) := by
  simp [Api.create_user, h]

/-- C5: a POST /users request whose email is already stored fails with HTTP
400 and leaves the store unchanged; the same signup payload sent twice yields
400 on the second call, from any starting store. -/
theorem create_user_conflict_400 (s t : Store) (p : UserCreate) (u : User)
    (h : Crud.get_user_by_email s p.email = some u) :
    Api.create_user s p =
      (.error (.http 400 "The user with this email already exists in the system."), s) ∧
    (Api.create_user (Api.create_user t p).2 p).1 =
      .error (.http 400 "The user with this email already exists in the system.") := by
  refine ⟨api_create_user_of_found s p u h, ?_⟩
  cases ht : Crud.get_user_by_email t p.email with
  | some v => rw [api_create_user_of_found t p v ht, api_create_user_of_found t p v ht]
  | none =>
      have hall : ∀ x ∈ t.users, (x.email == p.email) = false := by
        intro x hx
        have := List.find?_eq_none.mp ht x hx
        simpa using this
      have hstep : (Api.create_user t p).2 =
          { t with
            users := t.users ++ [⟨t.next_id, p.email, p.username, get_password_hash p.password⟩],
            summaries := t.summaries ++ [⟨t.next_id + 1, t.next_id⟩],
            next_id := t.next_id + 1 + 1 } := by
        simp [Api.create_user, ht, Crud.create_user, Crud.create_summary]
      have hfind : Crud.get_user_by_email (Api.create_user t p).2 p.email =
          some ⟨t.next_id, p.email, p.username, get_password_hash p.password⟩ := by
        rw [hstep]
        exact list_find_middle (fun x : User => x.email == p.email) t.users []
          ⟨t.next_id, p.email, p.username, get_password_hash p.password⟩ hall (by simp)
      rw [api_create_user_of_found _ p _ hfind]

/-- C5 witness. -/
theorem create_user_conflict_400_witness :
    Api.create_user ⟨[⟨1, "a@x.com", "a", "h"⟩], [], [], [], [], [], 2⟩
        ⟨"a@x.com", "b", "q"⟩ =
      (.error (.http 400 "The user with this email already exists in the system."),
        ⟨[⟨1, "a@x.com", "a", "h"⟩], [], [], [], [], [], 2⟩) ∧
    (Api.create_user (Api.create_user ⟨[], [], [], [], [], [], 1⟩
        ⟨"a@x.com", "b", "q"⟩).2 ⟨"a@x.com", "b", "q"⟩).1 =
      .error (.http 400 "The user with this email already exists in the system.") :=
  create_user_conflict_400 ⟨[⟨1, "a@x.com", "a", "h"⟩], [], [], [], [], [], 2⟩
    ⟨[], [], [], [], [], [], 1⟩ ⟨"a@x.com", "b", "q"⟩ ⟨1, "a@x.com", "a", "h"⟩ (by rfl)

/-- C2 counterexample: on an empty store, signup with a fresh email succeeds
but the resulting store holds no portfolio at all, so no portfolio owned by
the new user exists, contrary to the claim that the handler creates the User
together with its Portfolio. -/
theorem create_user_no_portfolio_counterexample :
    (Api.create_user ⟨[], [], [], [], [], [], 1⟩ ⟨"a@x.com", "a", "p"⟩).1 =
      .ok ⟨1, "a@x.com", "a", get_password_hash "p"⟩ ∧
    (Api.create_user ⟨[], [], [], [], [], [], 1⟩ ⟨"a@x.com", "a", "p"⟩).2.portfolios = [] :=
  ⟨rfl, rfl⟩

/-- C2 amended: a POST /users request with an unregistered email creates the
User and its Summary (a summary row owned by the new user exists afterwards),
but no Portfolio: the portfolio table is exactly as before the call. -/
theorem create_user_creates_user_and_summary (s : Store) (p : UserCreate)
    (h : Crud.get_user_by_email s p.email = none) :
    ∃ u s2, Api.create_user s p = (.ok u, s2) ∧ u ∈ s2.users ∧
      u.email = p.email ∧ u.username = p.username ∧
      u.hashed_password = get_password_hash p.password ∧
      (∃ x ∈ s2.summaries, x.user_id = u.id) ∧
      s2.portfolios = s.portfolios := by
  refine ⟨⟨s.next_id, p.email, p.username, get_password_hash p.password⟩,
    { s with
      users := s.users ++ [⟨s.next_id, p.email, p.username, get_password_hash p.password⟩],
      summaries := s.summaries ++ [⟨s.next_id + 1, s.next_id⟩],
      next_id := s.next_id + 1 + 1 }, ?_, ?_, rfl, rfl, rfl, ?_, ?_⟩
  · simp [Api.create_user, h, Crud.create_user, Crud.create_summary]
  · simp
  · exact ⟨⟨s.next_id + 1, s.next_id⟩, by simp, rfl⟩
  · rfl

/-- C2 amended witness. -/
theorem create_user_creates_user_and_summary_witness :
    ∃ u s2, Api.create_user ⟨[], [], [], [], [], [], 1⟩ ⟨"a@x.com", "a", "p"⟩ = (.ok u, s2) ∧
      u ∈ s2.users ∧ u.email = "a@x.com" ∧ u.username = "a" ∧
      u.hashed_password = get_password_hash "p" ∧
      (∃ x ∈ s2.summaries, x.user_id = u.id) ∧ s2.portfolios = [] :=
  create_user_creates_user_and_summary ⟨[], [], [], [], [], [], 1⟩ ⟨"a@x.com", "a", "p"⟩ (by rfl)

/-! ### C6: partial-update semantics of update_order and update_summary -/

set_option maxHeartbeats 2000000 in
theorem orderGetattr_setattr_ne (o : Order) (k q : String) (v : PyValue) (h : q ≠ k) :
    orderGetattr (orderSetattr o k v) q = orderGetattr o q := by
  cases v <;> simp only [orderSetattr] <;> split_ifs <;>
    simp only [orderGetattr] <;> split_ifs <;>
    first
      | rfl
      | (exfalso; apply h; subst_vars; rfl)

theorem orderGetattr_setattr_self (o : Order) (k : String) (v : PyValue)
    (ha : orderHasAttr k = true) (hw : orderWellTyped k v = true) :
    orderGetattr (orderSetattr o k v) k = some v := by
  have hmem : k = "id" ∨ k = "user_id" ∨ k = "instrument_id" ∨ k = "type" ∨
      k = "date" ∨ k = "volume" ∨ k = "price" := by
    simpa [orderHasAttr, orderAttrs] using ha
  rcases hmem with rfl | rfl | rfl | rfl | rfl | rfl | rfl <;> cases v <;>
    simp_all [orderWellTyped, orderHasAttr, orderAttrs, orderSetattr, orderGetattr,
      PyValue.isInt, PyValue.isStr]

theorem order_apply_set_getattr_ne (o : Order) (kv : String × PyValue) (q : String)
    (h : q ≠ kv.1) :
    orderGetattr (order_apply_set o kv) q = orderGetattr o q := by
  unfold order_apply_set
  split_ifs
  · exact orderGetattr_setattr_ne o kv.1 q kv.2 h
  · rfl

theorem order_foldl_getattr_not_mem (d : List (String × PyValue)) (o : Order) (k : String)
    (h : k ∉ d.map Prod.fst) :
    orderGetattr (d.foldl order_apply_set o) k = orderGetattr o k := by
  induction d generalizing o with
  | nil => rfl
  | cons kv rest ih =>
      simp only [List.map_cons, List.mem_cons, not_or] at h
      rw [List.foldl_cons, ih (order_apply_set o kv) h.2,
        order_apply_set_getattr_ne o kv k h.1]

theorem order_foldl_unknown (d : List (String × PyValue)) (o : Order)
    (h : ∀ kv ∈ d, orderHasAttr kv.1 = false) :
    d.foldl order_apply_set o = o := by
  induction d generalizing o with
  | nil => rfl
  | cons kv rest ih =>
      have hk := h kv (List.mem_cons_self kv rest)
      rw [List.foldl_cons, show order_apply_set o kv = o by simp [order_apply_set, hk]]
      exact ih o fun x hx => h x (List.mem_cons_of_mem kv hx)

theorem order_foldl_getattr_mem (d : List (String × PyValue)) (o : Order)
    (kv : String × PyValue) (hmem : kv ∈ d) (hnd : (d.map Prod.fst).Nodup)
    (hw : ∀ p ∈ d, orderWellTyped p.1 p.2 = true) (ha : orderHasAttr kv.1 = true) :
    orderGetattr (d.foldl order_apply_set o) kv.1 = some kv.2 := by
  induction d generalizing o with
  | nil => cases hmem
  | cons hd rest ih =>
      rw [List.foldl_cons]
      have hnd' : hd.1 ∉ rest.map Prod.fst ∧ (rest.map Prod.fst).Nodup := by
        rw [List.map_cons, List.nodup_cons] at hnd
        exact hnd
      rcases List.mem_cons.mp hmem with rfl | hmem2
      · rw [order_foldl_getattr_not_mem rest (order_apply_set o kv) kv.1 hnd'.1]
        have := orderGetattr_setattr_self o kv.1 kv.2 ha
          (hw kv (List.mem_cons_self kv rest))
        simpa [order_apply_set, ha] using this
      · exact ih (order_apply_set o hd) hmem2 hnd'.2
          (fun p hp => hw p (List.mem_cons_of_mem hd hp))

set_option maxHeartbeats 1000000 in
theorem summaryGetattr_setattr_ne (x : Summary) (k q : String) (v : PyValue) (h : q ≠ k) :
    summaryGetattr (summarySetattr x k v) q = summaryGetattr x q := by
  cases v <;> simp only [summarySetattr] <;> split_ifs <;>
    simp only [summaryGetattr] <;> split_ifs <;>
    first
      | rfl
      | (exfalso; apply h; subst_vars; rfl)

theorem summaryGetattr_setattr_self (x : Summary) (k : String) (v : PyValue)
    (ha : summaryHasAttr k = true) (hw : summaryWellTyped k v = true) :
    summaryGetattr (summarySetattr x k v) k = some v := by
  have hmem : k = "id" ∨ k = "user_id" := by
    simpa [summaryHasAttr, summaryAttrs] using ha
  rcases hmem with rfl | rfl <;> cases v <;>
    simp_all [summaryWellTyped, summaryHasAttr, summaryAttrs, summarySetattr,
      summaryGetattr, PyValue.isInt, PyValue.isStr]

theorem summary_apply_set_getattr_ne (x : Summary) (kv : String × PyValue) (q : String)
    (h : q ≠ kv.1) :
    summaryGetattr (summary_apply_set x kv) q = summaryGetattr x q := by
  unfold summary_apply_set
  split_ifs
  · exact summaryGetattr_setattr_ne x kv.1 q kv.2 h
  · rfl

theorem summary_foldl_getattr_not_mem (e : List (String × PyValue)) (x : Summary)
    (k : String) (h : k ∉ e.map Prod.fst) :
    summaryGetattr (e.foldl summary_apply_set x) k = summaryGetattr x k := by
  induction e generalizing x with
  | nil => rfl
  | cons kv rest ih =>
      simp only [List.map_cons, List.mem_cons, not_or] at h
      rw [List.foldl_cons, ih (summary_apply_set x kv) h.2,
        summary_apply_set_getattr_ne x kv k h.1]

theorem summary_foldl_unknown (e : List (String × PyValue)) (x : Summary)
    (h : ∀ kv ∈ e, summaryHasAttr kv.1 = false) :
    e.foldl summary_apply_set x = x := by
  induction e generalizing x with
  | nil => rfl
  | cons kv rest ih =>
      have hk := h kv (List.mem_cons_self kv rest)
      rw [List.foldl_cons, show summary_apply_set x kv = x by simp [summary_apply_set, hk]]
      exact ih x fun y hy => h y (List.mem_cons_of_mem kv hy)

theorem summary_foldl_getattr_mem (e : List (String × PyValue)) (x : Summary)
    (kv : String × PyValue) (hmem : kv ∈ e) (hnd : (e.map Prod.fst).Nodup)
    (hw : ∀ p ∈ e, summaryWellTyped p.1 p.2 = true) (ha : summaryHasAttr kv.1 = true) :
    summaryGetattr (e.foldl summary_apply_set x) kv.1 = some kv.2 := by
  induction e generalizing x with
  | nil => cases hmem
  | cons hd rest ih =>
      rw [List.foldl_cons]
      have hnd' : hd.1 ∉ rest.map Prod.fst ∧ (rest.map Prod.fst).Nodup := by
        rw [List.map_cons, List.nodup_cons] at hnd
        exact hnd
      rcases List.mem_cons.mp hmem with rfl | hmem2
      · rw [summary_foldl_getattr_not_mem rest (summary_apply_set x kv) kv.1 hnd'.1]
        have := summaryGetattr_setattr_self x kv.1 kv.2 ha
          (hw kv (List.mem_cons_self kv rest))
        simpa [summary_apply_set, ha] using this
      · exact ih (summary_apply_set x hd) hmem2 hnd'.2
          (fun p hp => hw p (List.mem_cons_of_mem hd hp))

/-- C6: update_order and update_summary change exactly the fields explicitly
set in the dump of the update payload: a field whose key is not in the dump
keeps its previous value, every set attribute ends up with the supplied
value, and a dump all of whose keys are not attributes of the entity leaves
the entity unchanged. -/
theorem update_order_summary_frame (s s2 : Store) (o : Order) (x : Summary)
    (d e : List (String × PyValue))
    (hd : (d.map Prod.fst).Nodup) (he : (e.map Prod.fst).Nodup)
    (hwd : ∀ kv ∈ d, orderWellTyped kv.1 kv.2 = true)
    (hwe : ∀ kv ∈ e, summaryWellTyped kv.1 kv.2 = true) :
    (∀ k, k ∉ d.map Prod.fst →
      orderGetattr (Crud.update_order s o d).1 k = orderGetattr o k) ∧
    (∀ kv ∈ d, orderHasAttr kv.1 = true →
      orderGetattr (Crud.update_order s o d).1 kv.1 = some kv.2) ∧
    ((∀ kv ∈ d, orderHasAttr kv.1 = false) → (Crud.update_order s o d).1 = o) ∧
    (∀ k, k ∉ e.map Prod.fst →
      summaryGetattr (Crud.update_summary s2 x e).1 k = summaryGetattr x k) ∧
    (∀ kv ∈ e, summaryHasAttr kv.1 = true →
      summaryGetattr (Crud.update_summary s2 x e).1 kv.1 = some kv.2) ∧
    ((∀ kv ∈ e, summaryHasAttr kv.1 = false) → (Crud.update_summary s2 x e).1 = x) := by
  refine ⟨?_, ?_, ?_, ?_, ?_, ?_⟩
  · intro k hk
    exact order_foldl_getattr_not_mem d o k hk
  · intro kv hkv ha
    exact order_foldl_getattr_mem d o kv hkv hd hwd ha
  · intro hall
    exact order_foldl_unknown d o hall
  · intro k hk
    exact summary_foldl_getattr_not_mem e x k hk
  · intro kv hkv ha
    exact summary_foldl_getattr_mem e x kv hkv he hwe ha
  · intro hall
    exact summary_foldl_unknown e x hall

/-- C6 witness. -/
theorem update_order_summary_frame_witness :
    orderGetattr (Crud.update_order ⟨[], [], [], [], [], [], 1⟩ ⟨5, 1, 9, "buy", 3, 2, 7⟩
      [("volume", .int 8), ("bogus", .str "z")]).1 "price" =
      orderGetattr ⟨5, 1, 9, "buy", 3, 2, 7⟩ "price" ∧
    orderGetattr (Crud.update_order ⟨[], [], [], [], [], [], 1⟩ ⟨5, 1, 9, "buy", 3, 2, 7⟩
      [("volume", .int 8), ("bogus", .str "z")]).1 "volume" = some (.int 8) ∧
    (Crud.update_order ⟨[], [], [], [], [], [], 1⟩ ⟨5, 1, 9, "buy", 3, 2, 7⟩
      [("bogus", .str "z")]).1 = ⟨5, 1, 9, "buy", 3, 2, 7⟩ ∧
    summaryGetattr (Crud.update_summary ⟨[], [], [], [], [], [], 1⟩ ⟨2, 1⟩
      [("user_id", .int 3)]).1 "user_id" = some (.int 3) := by
  refine ⟨?_, ?_, ?_, ?_⟩
  · exact (update_order_summary_frame ⟨[], [], [], [], [], [], 1⟩ ⟨[], [], [], [], [], [], 1⟩
      ⟨5, 1, 9, "buy", 3, 2, 7⟩ ⟨2, 1⟩ [("volume", .int 8), ("bogus", .str "z")] []
      (by decide) (by decide) (by decide) (by decide)).1 "price" (by decide)
  · exact (update_order_summary_frame ⟨[], [], [], [], [], [], 1⟩ ⟨[], [], [], [], [], [], 1⟩
      ⟨5, 1, 9, "buy", 3, 2, 7⟩ ⟨2, 1⟩ [("volume", .int 8), ("bogus", .str "z")] []
      (by decide) (by decide) (by decide) (by decide)).2.1 ("volume", .int 8)
      (by decide) (by decide)
  · exact (update_order_summary_frame ⟨[], [], [], [], [], [], 1⟩ ⟨[], [], [], [], [], [], 1⟩
      ⟨5, 1, 9, "buy", 3, 2, 7⟩ ⟨2, 1⟩ [("bogus", .str "z")] []
      (by decide) (by decide) (by decide) (by decide)).2.2.1 (by decide)
  · exact (update_order_summary_frame ⟨[], [], [], [], [], [], 1⟩ ⟨[], [], [], [], [], [], 1⟩
      ⟨5, 1, 9, "buy", 3, 2, 7⟩ ⟨2, 1⟩ [] [("user_id", .int 3)]
      (by decide) (by decide) (by decide) (by decide)).2.2.2.2.1 ("user_id", .int 3)
      (by decide) (by decide)

/-! ### C8: PUT /users applying both a username and a password change -/

theorem email_not_in_front {m1 m2 : List User} {u : User}
    (hnd : ((m1 ++ u :: m2).map (fun x => x.email)).Nodup) :
    ∀ x ∈ m1, (x.email == u.email) = false := by
  intro x hx
  rw [List.map_append, List.map_cons, List.nodup_append] at hnd
  have hdis := hnd.2.2
  have hmem : x.email ∈ m1.map (fun x => x.email) := List.mem_map_of_mem _ hx
  have hne : x.email ≠ u.email := by
    intro he
    exact hdis hmem (by rw [he]; exact List.mem_cons_self _ _)
  simpa using hne

/-- C8: on an existing user, a PUT /users payload supplying both a username
and a password applies both changes in the one call: the handler succeeds
and the stored user afterwards keeps its id and email, carries the new
username, and carries a hashed_password equal to the hash of the new
password (the plaintext is re-hashed, never stored). -/
theorem update_user_both_apply (s : Store) (uid : Int) (data : UserUpdate) (u : User)
    (un pw : String)
    (hu : Crud.get_user_by_id s uid = some u)
    (hnd : (s.users.map (fun x => x.email)).Nodup)
    (hun : data.username = some un) (hun2 : un ≠ "")
    (hpw : data.password = some pw) (hpw2 : pw ≠ "") :
    ∃ s2, Api.update_user s uid data =
        (.ok ⟨u.id, u.email, un, get_password_hash pw⟩, s2) ∧
      Crud.get_user_by_id s2 uid = some ⟨u.id, u.email, un, get_password_hash pw⟩ := by
  have htu : pyTruthyOptStr (some un) = true := by simp [pyTruthyOptStr, hun2]
  have htp : pyTruthyOptStr (some pw) = true := by simp [pyTruthyOptStr, hpw2]
  obtain ⟨m1, m2, hsplit, hm1, hup⟩ :=
    list_find_split (fun x : User => x.id == uid) s.users u hu
  have hm1e : ∀ x ∈ m1, (x.email == u.email) = false :=
    email_not_in_front (by rw [hsplit] at hnd; exact hnd)
  have hue : (u.email == u.email) = true := by simp
  have hfe : Crud.get_user_by_email s u.email = some u := by
    unfold Crud.get_user_by_email
    rw [hsplit]
    exact list_find_middle _ m1 m2 u hm1e hue
  have hc1 : Crud.change_username s u.email un =
      .ok ({ u with username := un },
        { s with users := m1 ++ { u with username := un } :: m2 }) := by
    unfold Crud.change_username
    rw [hfe, hsplit, updateFirst_middle _ _ m1 m2 u hm1e hue]
  have hfe2 : Crud.get_user_by_email
      { s with users := m1 ++ { u with username := un } :: m2 } u.email =
      some { u with username := un } := by
    unfold Crud.get_user_by_email
    exact list_find_middle _ m1 m2 { u with username := un } hm1e hue
  have hc2 : Crud.change_password
      { s with users := m1 ++ { u with username := un } :: m2 } u.email pw =
      .ok (⟨u.id, u.email, un, get_password_hash pw⟩,
        { s with users := m1 ++ ⟨u.id, u.email, un, get_password_hash pw⟩ :: m2 }) := by
    unfold Crud.change_password
    rw [hfe2, updateFirst_middle _ _ m1 m2 { u with username := un } hm1e hue]
  refine ⟨{ s with users := m1 ++ ⟨u.id, u.email, un, get_password_hash pw⟩ :: m2 }, ?_, ?_⟩
  · simp [Api.update_user, hu, htu, htp, hun, hpw, hc1, hc2]
  · unfold Crud.get_user_by_id
    exact list_find_middle _ m1 m2 ⟨u.id, u.email, un, get_password_hash pw⟩ hm1 hup

/-- C8 witness. -/
theorem update_user_both_apply_witness :
    ∃ s2, Api.update_user ⟨[⟨1, "a@x.com", "a", "h"⟩], [], [], [], [], [], 2⟩ 1
        ⟨some "b", some "q"⟩ =
      (.ok ⟨1, "a@x.com", "b", get_password_hash "q"⟩, s2) ∧
      Crud.get_user_by_id s2 1 = some ⟨1, "a@x.com", "b", get_password_hash "q"⟩ :=
  update_user_both_apply ⟨[⟨1, "a@x.com", "a", "h"⟩], [], [], [], [], [], 2⟩ 1
    ⟨some "b", some "q"⟩ ⟨1, "a@x.com", "a", "h"⟩ "b" "q"
    (by rfl) (by decide) (by rfl) (by decide) (by rfl) (by decide)

/-! ### C1: DELETE /users cascade -/

theorem delete_order_foldl (L : List Order) (s : Store) :
    L.foldl Crud.delete_order s =
      { s with orders := s.orders.filter (fun o => L.all (fun d => o.id != d.id)) } := by
  induction L generalizing s with
  | nil => simp
  | cons d rest ih =>
      rw [List.foldl_cons, ih]
      unfold Crud.delete_order
      congr 1
      rw [List.filter_filter]
      apply List.filter_congr
      intro x hx
      simp [List.all_cons, Bool.and_comm]

/-- C1: for an id held by a stored user (whose summary exists, unique per the
one-summary-per-user invariant), DELETE /users removes all of the user's
orders, the user's summary, the portfolio rows owned by the user together
with the assets of those portfolios, and the user row itself, and returns
the deleted user; for an id matching no user it fails with HTTP 400 and the
store is unchanged. -/
theorem delete_user_cascades (s t : Store) (uid vid : Int) (u : User) (sm : Summary)
    (hu : Crud.get_user_by_id s uid = some u)
    (hsm : Crud.get_summary_by_user_id s uid = some sm)
    (hsm1 : ∀ x ∈ s.summaries, x.user_id = uid → x.id = sm.id)
    (hnone : Crud.get_user_by_id t vid = none) :
    (∃ s3, Api.delete_user s uid = (.ok u, s3) ∧
      (∀ o ∈ s3.orders, o.user_id ≠ uid) ∧
      (∀ x ∈ s3.summaries, x.user_id ≠ uid) ∧
      (∀ w ∈ s3.users, w.id ≠ uid) ∧
      (∀ p ∈ s3.portfolios, p.user_id ≠ uid) ∧
      (∀ a ∈ s3.assets, ∀ p ∈ s.portfolios, p.user_id = uid → a.portfolio_id ≠ p.id)) ∧
    Api.delete_user t vid = (.error (.http 400 "Unable to find user with id."), t) := by
  have hu' : s.users.find? (fun x => x.id == uid) = some u := hu
  have huid' : u.id = uid := by simpa using List.find?_some hu'
  constructor
  · have hfold := delete_order_foldl (s.orders.filter (fun o => o.user_id == u.id)) s
    have hsm' : Crud.get_summary_by_user_id
        { s with orders := s.orders.filter (fun o =>
            (s.orders.filter (fun o2 => o2.user_id == u.id)).all (fun d => o.id != d.id)) }
        uid = some sm := hsm
    refine ⟨{ users := s.users.filter (fun w => w.id != u.id),
              instruments := s.instruments,
              orders := s.orders.filter (fun o =>
                (s.orders.filter (fun o2 => o2.user_id == u.id)).all (fun d => o.id != d.id)),
              summaries := s.summaries.filter (fun x => x.id != sm.id),
              portfolios := s.portfolios.filter (fun p => p.user_id != u.id),
              assets := s.assets.filter (fun a =>
                !((s.portfolios.filter (fun p => p.user_id == u.id)).any
                  (fun p => p.id == a.portfolio_id))),
              next_id := s.next_id }, ?_, ?_, ?_, ?_, ?_, ?_⟩
    · simp only [Api.delete_user, hu, hfold, hsm']
      simp only [Crud.delete_summary, Crud.delete_user, Crud.user_row_cascade]
    · intro o ho
      have ho2 := List.mem_filter.mp ho
      intro habs
      have hoL : o ∈ s.orders.filter (fun o2 => o2.user_id == u.id) :=
        List.mem_filter.mpr ⟨ho2.1, by simp [habs, huid']⟩
      have := List.all_eq_true.mp ho2.2 o hoL
      simp at this
    · intro x hx
      have hx2 := List.mem_filter.mp hx
      intro habs
      have := hsm1 x hx2.1 habs
      rw [this] at hx2
      simp at hx2
    · intro w hw
      have hw2 := List.mem_filter.mp hw
      intro habs
      rw [habs, ← huid'] at hw2
      simp at hw2
    · intro p hp
      have hp2 := List.mem_filter.mp hp
      intro habs
      rw [habs, ← huid'] at hp2
      simp at hp2
    · intro a ha p hp hpu habs
      have ha2 := List.mem_filter.mp ha
      have hpo : p ∈ List.filter (fun q => q.user_id == u.id) s.portfolios :=
        List.mem_filter.mpr ⟨hp, by simp [hpu, huid']⟩
      have hany : (List.filter (fun q => q.user_id == u.id) s.portfolios).any
          (fun q => q.id == a.portfolio_id) = true :=
        List.any_eq_true.mpr ⟨p, hpo, by simp [habs]⟩
      rw [hany] at ha2
      simp at ha2
  · unfold Api.delete_user
    rw [hnone]

/-- C1 witness. -/
theorem delete_user_cascades_witness :
    (∃ s3, Api.delete_user
        ⟨[⟨1, "a@x.com", "a", "h"⟩], [], [⟨5, 1, 9, "buy", 3, 2, 7⟩, ⟨6, 2, 9, "sell", 3, 2, 7⟩],
          [⟨2, 1⟩], [⟨3, 1⟩], [⟨4, 3, 9, "d", 1, 1⟩], 10⟩ 1 =
        (.ok ⟨1, "a@x.com", "a", "h"⟩, s3) ∧
      (∀ o ∈ s3.orders, o.user_id ≠ 1) ∧
      (∀ x ∈ s3.summaries, x.user_id ≠ 1) ∧
      (∀ w ∈ s3.users, w.id ≠ 1) ∧
      (∀ p ∈ s3.portfolios, p.user_id ≠ 1) ∧
      (∀ a ∈ s3.assets, ∀ p ∈ ([⟨3, 1⟩] : List Portfolio), p.user_id = 1 →
        a.portfolio_id ≠ p.id)) ∧
    Api.delete_user ⟨[], [], [], [], [], [], 1⟩ 1 =
      (.error (.http 400 "Unable to find user with id."), ⟨[], [], [], [], [], [], 1⟩) :=
  delete_user_cascades
    ⟨[⟨1, "a@x.com", "a", "h"⟩], [], [⟨5, 1, 9, "buy", 3, 2, 7⟩, ⟨6, 2, 9, "sell", 3, 2, 7⟩],
      [⟨2, 1⟩], [⟨3, 1⟩], [⟨4, 3, 9, "d", 1, 1⟩], 10⟩
    ⟨[], [], [], [], [], [], 1⟩ 1 1 ⟨1, "a@x.com", "a", "h"⟩ ⟨2, 1⟩
    (by rfl) (by rfl) (by decide) (by rfl)

/-- C3 counterexample: change_username, a data-access operation given an email
matching no stored row, raises an AttributeError (the attribute assignment on
the None lookup result) instead of returning an absent/null marker. -/
theorem change_username_absent_raises_counterexample :
    Crud.change_username ⟨[], [], [], [], [], [], 1⟩ "a@x.com" "b" =
      .error (.attributeError "NoneType object has no attribute username") :=
  rfl

/-- C3 amended: every lookup operation of the CRUD layer given an identifier
matching no stored row returns None without raising, and the handlers alone
translate absence into HTTP errors; the two exceptions are change_username
and change_password, which perform no absence check and raise an
AttributeError when the email matches no row. -/
theorem crud_absent_lookups_return_none (s : Store)
    (email username symbol nu np : String) (uid iid oid sid suid : Int)
    (h1 : ∀ u ∈ s.users, u.email ≠ email)
    (h2 : ∀ u ∈ s.users, u.username ≠ username)
    (h3 : ∀ u ∈ s.users, u.id ≠ uid)
    (h4 : ∀ i ∈ s.instruments, i.symbol ≠ symbol)
    (h5 : ∀ i ∈ s.instruments, i.id ≠ iid)
    (h6 : ∀ o ∈ s.orders, o.id ≠ oid)
    (h7 : ∀ x ∈ s.summaries, x.id ≠ sid)
    (h8 : ∀ x ∈ s.summaries, x.user_id ≠ suid) :
    Crud.get_user_by_email s email = none ∧
    Crud.get_user_by_username s username = none ∧
    Crud.get_user_by_id s uid = none ∧
    Crud.get_instrument_by_symbol s symbol = none ∧
    Crud.get_instrument_by_id s iid = none ∧
    Crud.get_order_by_id s oid = none ∧
    Crud.get_summary_by_id s sid = none ∧
    Crud.get_summary_by_user_id s suid = none ∧
    Crud.change_username s email nu =
      .error (.attributeError "NoneType object has no attribute username") ∧
    Crud.change_password s email np =
      .error (.attributeError "NoneType object has no attribute hashed_password") := by
  have e1 : Crud.get_user_by_email s email = none :=
    List.find?_eq_none.mpr fun x hx => by simp [h1 x hx]
  refine ⟨e1, ?_, ?_, ?_, ?_, ?_, ?_, ?_, ?_, ?_⟩
  · exact List.find?_eq_none.mpr fun x hx => by simp [h2 x hx]
  · exact List.find?_eq_none.mpr fun x hx => by simp [h3 x hx]
  · exact List.find?_eq_none.mpr fun x hx => by simp [h4 x hx]
  · exact List.find?_eq_none.mpr fun x hx => by simp [h5 x hx]
  · exact List.find?_eq_none.mpr fun x hx => by simp [h6 x hx]
  · exact List.find?_eq_none.mpr fun x hx => by simp [h7 x hx]
  · exact List.find?_eq_none.mpr fun x hx => by simp [h8 x hx]
  · simp [Crud.change_username, e1]
  · simp [Crud.change_password, e1]

/-- C3 amended witness. -/
theorem crud_absent_lookups_return_none_witness :
    Crud.get_user_by_email ⟨[⟨1, "a@x.com", "a", "h"⟩], [], [], [], [], [], 2⟩ "b@x.com" = none ∧
    Crud.get_user_by_username ⟨[⟨1, "a@x.com", "a", "h"⟩], [], [], [], [], [], 2⟩ "b" = none ∧
    Crud.get_user_by_id ⟨[⟨1, "a@x.com", "a", "h"⟩], [], [], [], [], [], 2⟩ 9 = none ∧
    Crud.get_instrument_by_symbol ⟨[⟨1, "a@x.com", "a", "h"⟩], [], [], [], [], [], 2⟩ "ZZZ" = none ∧
    Crud.get_instrument_by_id ⟨[⟨1, "a@x.com", "a", "h"⟩], [], [], [], [], [], 2⟩ 9 = none ∧
    Crud.get_order_by_id ⟨[⟨1, "a@x.com", "a", "h"⟩], [], [], [], [], [], 2⟩ 9 = none ∧
    Crud.get_summary_by_id ⟨[⟨1, "a@x.com", "a", "h"⟩], [], [], [], [], [], 2⟩ 9 = none ∧
    Crud.get_summary_by_user_id ⟨[⟨1, "a@x.com", "a", "h"⟩], [], [], [], [], [], 2⟩ 9 = none ∧
    Crud.change_username ⟨[⟨1, "a@x.com", "a", "h"⟩], [], [], [], [], [], 2⟩ "b@x.com" "b" =
      .error (.attributeError "NoneType object has no attribute username") ∧
    Crud.change_password ⟨[⟨1, "a@x.com", "a", "h"⟩], [], [], [], [], [], 2⟩ "b@x.com" "q" =
      .error (.attributeError "NoneType object has no attribute hashed_password") :=
  crud_absent_lookups_return_none ⟨[⟨1, "a@x.com", "a", "h"⟩], [], [], [], [], [], 2⟩
    "b@x.com" "b" "ZZZ" "b" "q" 9 9 9 9 9
    (by decide) (by decide) (by decide) (by decide) (by decide)
    (by decide) (by decide) (by decide)
